import Mathlib

/-!
Verification of the face-detection attendance system core: a shallow
embedding of the attendance `mark` route, the face `register` and `scan`
routes, and the `fetchWithRetry` helper, translated from the repository
sources, together with theorems settling the specification claims.
-/

set_option maxRecDepth 4000

namespace Attendance

/-- The observations the route handlers make of `new Date()`:
milliseconds since epoch (`getTime`), local hours and minutes
(`getHours`/`getMinutes`), and the `toISOString().split("T")[0]` date
string used as the per-day key. -/
structure Time where
  ms : Nat
  hours : Nat
  minutes : Nat
  dateStr : String
deriving DecidableEq, Repr

/-- A check-in or check-out sub-record, as stored by the mark route:
`{ time: now, confidence: confidence || 0, method: method || "face_scan",
liveness: liveness?.is_live ?? true }`. -/
structure CheckRec where
  time : Nat
  confidence : ℚ
  method : String
  liveness : Bool
deriving DecidableEq, Repr

/-- One attendance document of the `attendance` datastore. -/
structure AttendanceRecord where
  recId : Nat
  userId : String
  date : String
  checkIn : Option CheckRec
  checkOut : Option CheckRec
  status : String
  createdAt : Nat
deriving DecidableEq, Repr

/-- The `faceEmbedding` sub-document of a user. The embedding vector is
opaque numeric data; only its presence and length matter to the routes. -/
structure FaceEmbedding where
  vector : List Int
  thumbnail : Option String
deriving DecidableEq, Repr

/-- One user document of the `users` datastore. -/
structure User where
  usrId : String
  name : String
  status : String
  faceEmbedding : Option FaceEmbedding
deriving DecidableEq, Repr

/-- The `faceRecognition` block of the admin settings document
(models/AdminSettings: matchThreshold, duplicateThreshold,
livenessRequired, maxScanAttempts). -/
structure FaceRecSettings where
  matchThreshold : ℚ
  duplicateThreshold : ℚ
  livenessRequired : Bool
  maxScanAttempts : Nat
deriving DecidableEq, Repr

/-- The admin settings document. `arrivalDeadline` is `none` when the
field is absent or empty (falsy in the source). -/
structure Settings where
  arrivalDeadline : Option String
  faceRecognition : Option FaceRecSettings
deriving DecidableEq, Repr

/-- The persistent state the routes read and write: the `users` and
`attendance` datastores, the settings singleton, and the id counter the
store uses for freshly inserted documents. -/
structure DB where
  users : List User
  attendance : List AttendanceRecord
  settings : Option Settings
  nextId : Nat
deriving DecidableEq, Repr

/-- The body of a POST /api/attendance/mark request:
`const { userId, confidence, liveness, method } = req.body`. The
`liveness` field is an optional object whose `is_live` field is itself
optional, matching `liveness?.is_live ?? true`. -/
structure MarkRequest where
  userId : Option String
  confidence : Option ℚ
  liveness : Option (Option Bool)
  method : Option String
deriving DecidableEq, Repr

/-- The outcomes of the mark route, one per return site of the handler. -/
inductive MarkResult where
  | userIdRequired
  | userNotFound
  | checkInOk (isLate : Bool)
  | alreadyComplete
  | checkOutOk
deriving DecidableEq, Repr

/-- The deadline actually used: `(settings.arrivalDeadline || "09:30")`
after the `if (!settings) settings = { arrivalDeadline: "09:30" }`
fallback. -/
def effectiveDeadline (db : DB) : String :=
  ((db.settings.bind (fun s => s.arrivalDeadline)).getD "09:30")

/-- The split performed by `deadline.split(":")`, on the character
list of the string. -/
def splitOnColon : List Char → List (List Char)
  | [] => [[]]
  | c :: rest =>
    match splitOnColon rest with
    | [] => [[c]]
    | seg :: segs => if c = ':' then [] :: seg :: segs else (c :: seg) :: segs

/-- The JS `Number(...)` coercion on one split segment: the empty string
is 0, a digit string is its value, anything else is NaN (`none`). -/
def numberOfChars (cs : List Char) : Option Nat :=
  if cs.isEmpty then some 0
  else if cs.all (fun c => c.isDigit) then
    some (cs.foldl (fun n c => n * 10 + (c.toNat - 48)) 0)
  else none

/-- The destructured `dH` of `deadline.split(":").map(Number)`; `none`
stands for NaN or a missing segment. -/
def deadlineHour (deadline : String) : Option Nat :=
  ((splitOnColon deadline.toList).get? 0).bind numberOfChars

/-- The destructured `dM` of `deadline.split(":").map(Number)`. -/
def deadlineMinute (deadline : String) : Option Nat :=
  ((splitOnColon deadline.toList).get? 1).bind numberOfChars

/-- A JS `>` comparison against a possibly-NaN number: any comparison
with NaN is false. -/
def natGtNum (x : Nat) (o : Option Nat) : Bool :=
  match o with
  | some v => x > v
  | none => false

/-- A JS `===` comparison against a possibly-NaN number. -/
def natEqNum (x : Nat) (o : Option Nat) : Bool :=
  match o with
  | some v => x == v
  | none => false

/-- The lateness test of the check-in path:
`const isLate = now.getHours() > dH ||
   (now.getHours() === dH && now.getMinutes() > dM);`. -/
def isLateAt (now : Time) (deadline : String) : Bool :=
  natGtNum now.hours (deadlineHour deadline) ||
    (natEqNum now.hours (deadlineHour deadline) &&
      natGtNum now.minutes (deadlineMinute deadline))

/-- The stored liveness flag: `liveness?.is_live ?? true`. -/
def livenessFlag (liveness : Option (Option Bool)) : Bool :=
  ((liveness.bind id).getD true)

/-- The sub-record written by the mark route for either transition. -/
def checkRecOf (req : MarkRequest) (now : Time) : CheckRec :=
  { time := now.ms
    confidence := req.confidence.getD 0
    method := req.method.getD "face_scan"
    liveness := livenessFlag req.liveness }

/-- The attendance lookup `db.attendance.findOne({ userId, date: today })`:
the store returns a matching document if one exists. -/
def markFind (uid today : String) (db : DB) : Option AttendanceRecord :=
  db.attendance.find? (fun a => a.userId == uid && a.date == today)

/-- The document inserted by the check-in path of the mark route. -/
def newRecordOf (req : MarkRequest) (now : Time) (uid : String) (db : DB) :
    AttendanceRecord :=
  { recId := db.nextId
    userId := uid
    date := now.dateStr
    checkIn := some (checkRecOf req now)
    checkOut := none
    status := if isLateAt now (effectiveDeadline db) then "late" else "present"
    createdAt := now.ms }

/-- The write half of the mark route, applied to the document `obs`
observed by `markFind`: insert a fresh checked-in record when none was
seen, reject when the seen record already has a checkOut, otherwise set
checkOut on the seen record by id. There is no cooldown test and the
checkOut update is unconditional. -/
def markApply (req : MarkRequest) (now : Time) (uid : String)
    (obs : Option AttendanceRecord) (db : DB) : MarkResult × DB :=
  match obs with
  | none =>
      (MarkResult.checkInOk (isLateAt now (effectiveDeadline db)),
       { db with attendance := db.attendance ++ [newRecordOf req now uid db]
                 nextId := db.nextId + 1 })
  | some att =>
      if att.checkOut.isSome then
        (MarkResult.alreadyComplete, db)
      else
        (MarkResult.checkOutOk,
         { db with attendance :=
            db.attendance.map (fun a =>
              if a.recId == att.recId then { a with checkOut := some (checkRecOf req now) } else a) })

/-- The POST /api/attendance/mark handler (src/unnamed/part_003): body
validation, user lookup by the body userId, then the find-then-apply
sequence on the attendance store. -/
def mark (req : MarkRequest) (now : Time) (db : DB) : MarkResult × DB :=
  match req.userId with
  | none => (MarkResult.userIdRequired, db)
  | some uid =>
    match db.users.find? (fun u => u.usrId == uid) with
    | none => (MarkResult.userNotFound, db)
    | some _ => markApply req now uid (markFind uid now.dateStr db) db

/-- The mark route as seen by an authenticated caller: `verifyToken`
attaches `req.user`, but the handler body never reads it. -/
def markWithCaller (_caller : String) (req : MarkRequest) (now : Time) (db : DB) :
    MarkResult × DB :=
  mark req now db

/-- Two concurrent mark calls for the same user interleaved at the await
boundary between `findOne` and the write: both calls observe the store
before either write lands (schedule read-read-write-write). -/
def twoMarksInterleaved (r1 r2 : MarkRequest) (t1 t2 : Time) (uid : String)
    (db0 : DB) : MarkResult × MarkResult × DB :=
  let o1 := markFind uid t1.dateStr db0
  let o2 := markFind uid t2.dateStr db0
  let s1 := markApply r1 t1 uid o1 db0
  let s2 := markApply r2 t2 uid o2 s1.2
  (s1.1, s2.1, s2.2)

/-- The number of attendance documents stored for a (userId, date) key
that carry a check-in. -/
def checkInCount (uid d : String) (db : DB) : Nat :=
  db.attendance.countP (fun a => a.userId == uid && a.date == d && a.checkIn.isSome)

/-- The number of attendance documents stored for a (userId, date) key. -/
def keyCount (uid d : String) (db : DB) : Nat :=
  db.attendance.countP (fun a => a.userId == uid && a.date == d)

/-- An HTTP response as the face routes observe it: a status code and a
parsed JSON body. `res.ok` is status 200-299. -/
structure HttpResponse (β : Type) where
  status : Nat
  body : β
deriving DecidableEq, Repr

/-- The outcome of one `fetch` attempt against the face service: either a
response arrived or the call threw (connection failure / abort). -/
inductive FetchOutcome (β : Type) where
  | thrown
  | resp (r : HttpResponse β)
deriving DecidableEq, Repr

/-- The `res.ok` test for our responses. -/
def HttpResponse.ok (r : HttpResponse β) : Bool :=
  200 ≤ r.status && r.status < 300

/-- The loop body of `fetchWithRetry` (src/unnamed/part_001 lines
187-207), over the sequence of per-attempt fetch outcomes. A 5xx
response with retries left waits and retries; any other response is
returned at once; a throw with retries left waits and retries, otherwise
the exception propagates (`none`). The second component counts the fetch
attempts made. The fuel argument is `retries + 1 - attempt`, the number
of loop iterations remaining. -/
def fetchAttempts (fetchAt : Nat → FetchOutcome β) (retries : Nat) :
    Nat → Nat → Option (HttpResponse β) × Nat
  | 0, _ => (none, 0)
  | fuel + 1, attempt =>
    match fetchAt attempt with
    | FetchOutcome.resp r =>
        if 500 ≤ r.status ∧ attempt < retries then
          let rest := fetchAttempts fetchAt retries fuel (attempt + 1)
          (rest.1, rest.2 + 1)
        else (some r, 1)
    | FetchOutcome.thrown =>
        if attempt < retries then
          let rest := fetchAttempts fetchAt retries fuel (attempt + 1)
          (rest.1, rest.2 + 1)
        else (none, 1)

/-- The retry helper `fetchWithRetry(url, options, retries = 1,
delayMs = 3000)`: run the attempt loop from attempt 0. Every call site
uses the default retry budget of one extra attempt. -/
def fetchWithRetry (fetchAt : Nat → FetchOutcome β) (retries : Nat) :
    Option (HttpResponse β) × Nat :=
  fetchAttempts fetchAt retries (retries + 1) 0

/-- One stored embedding entry sent to the face service:
`{ user_id, name, embedding }`. -/
structure StoredEmb where
  user_id : String
  name : String
  embedding : List Int
deriving DecidableEq, Repr

/-- A request to the remote face-scoring service, as placed on the wire
by the routes (endpoint plus JSON payload fields the claims speak of). -/
inductive OracleRequest where
  | matchFaces (image : String) (embs : List StoredEmb) (threshold : ℚ)
  | duplicateCheck (image : String) (embs : List StoredEmb) (threshold : ℚ)
  | embedFace (image : String)
deriving DecidableEq, Repr

/-- The parsed body of a /match response. -/
structure MatchData where
  matched : Bool
  user_id : Option String
  confidence : ℚ
  liveness : Option Bool
  best_score : ℚ
deriving DecidableEq, Repr

/-- The parsed body of a /duplicate-check response. -/
structure DupData where
  is_duplicate : Bool
  existing_name : Option String
deriving DecidableEq, Repr

/-- The parsed body of an /embed response. -/
structure EmbedData where
  embedding : List Int
  thumbnail : Option String
deriving DecidableEq, Repr

/-- Whether a user document carries a non-empty face embedding vector
(`"faceEmbedding.vector": { $exists: true, $not: { $size: 0 } }`). -/
def hasFaceVector (u : User) : Bool :=
  match u.faceEmbedding with
  | none => false
  | some fe => !fe.vector.isEmpty

/-- The scan route's profile query: all active users with a non-empty
face embedding vector. -/
def activeUsersWithFaces (db : DB) : List User :=
  db.users.filter (fun u => u.status == "active" && hasFaceVector u)

/-- The register route's duplicate-check pool: every other user with a
non-empty face embedding vector. -/
def otherUsersWithFaces (selfId : String) (db : DB) : List User :=
  db.users.filter (fun u => u.usrId != selfId && hasFaceVector u)

/-- The payload entries
`users.map(u => ({ user_id, name, embedding: u.faceEmbedding.vector }))`. -/
def storedEmbeddingsOf (us : List User) : List StoredEmb :=
  us.map (fun u =>
    { user_id := u.usrId
      name := u.name
      embedding := (u.faceEmbedding.map (fun fe => fe.vector)).getD [] })

/-- The outcomes of POST /api/face/scan, one per return site. -/
inductive ScanResult where
  | imageRequired
  | noProfiles
  | matchCallFailed
  | notRecognized (bestScore : ℚ)
  | matchedUserMissing
  | recognized (userId name : String) (confidence : ℚ) (liveness : Option Bool)
  | serviceError
deriving DecidableEq, Repr

/-- The POST /api/face/scan handler (src/unnamed/part_001 lines
335-415): validate the image, load active profiles, fail fast when none
exist, otherwise call /match through `fetchWithRetry` with the hardcoded
threshold 0.55 and interpret the response. The returned list records
every request placed against the face service. -/
def scan (image : Option String) (db : DB)
    (matchFetch : Nat → FetchOutcome MatchData) : ScanResult × List OracleRequest :=
  match image with
  | none => (ScanResult.imageRequired, [])
  | some img =>
    let usersWithFaces := activeUsersWithFaces db
    if usersWithFaces.isEmpty then
      (ScanResult.noProfiles, [])
    else
      let embs := storedEmbeddingsOf usersWithFaces
      let req := OracleRequest.matchFaces img embs (55 / 100)
      match (fetchWithRetry matchFetch 1).1 with
      | none => (ScanResult.serviceError, [req])
      | some r =>
        if !r.ok then (ScanResult.matchCallFailed, [req])
        else if !r.body.matched then (ScanResult.notRecognized r.body.best_score, [req])
        else
          match usersWithFaces.find? (fun u => some u.usrId == r.body.user_id) with
          | none => (ScanResult.matchedUserMissing, [req])
          | some u =>
              (ScanResult.recognized u.usrId u.name r.body.confidence r.body.liveness, [req])

/-- The outcomes of POST /api/face/register, one per return site. -/
inductive RegisterResult where
  | imageRequired
  | userNotFound
  | alreadyRegistered
  | dupCheckFailed
  | duplicateFace (existingName : Option String)
  | embedCallFailed
  | registered (thumbnail : Option String)
  | serviceError
deriving DecidableEq, Repr

/-- The embed-and-save tail of the register handler, reached only when
the duplicate check passed (or was skipped because no other face
exists): call /embed through `fetchWithRetry` and store the returned
embedding on the user. `dupLog` carries the duplicate-check request
placed earlier, if any. -/
def registerEmbed (img : String) (dupLog : List OracleRequest) (db : DB)
    (user : User) (embedFetch : Nat → FetchOutcome EmbedData) :
    RegisterResult × List OracleRequest × DB :=
  let req2 := OracleRequest.embedFace img
  match (fetchWithRetry embedFetch 1).1 with
  | none => (RegisterResult.serviceError, dupLog ++ [req2], db)
  | some r =>
    if !r.ok then (RegisterResult.embedCallFailed, dupLog ++ [req2], db)
    else
      let fe : FaceEmbedding := { vector := r.body.embedding, thumbnail := r.body.thumbnail }
      (RegisterResult.registered r.body.thumbnail, dupLog ++ [req2],
       { db with users :=
          db.users.map (fun u =>
            if u.usrId == user.usrId then { u with faceEmbedding := some fe } else u) })

/-- The POST /api/face/register handler (src/unnamed/part_001 lines
236-331): validate, block users who already have a face, run the
duplicate check against all other enrolled faces with the hardcoded
threshold 0.65, abort on a duplicate verdict, otherwise call /embed and
store the returned embedding on the user. Returns the result, the
requests placed against the face service, and the updated store. -/
def register (callerId : String) (image : Option String) (db : DB)
    (dupFetch : Nat → FetchOutcome DupData)
    (embedFetch : Nat → FetchOutcome EmbedData) :
    RegisterResult × List OracleRequest × DB :=
  match image with
  | none => (RegisterResult.imageRequired, [], db)
  | some img =>
    match db.users.find? (fun u => u.usrId == callerId) with
    | none => (RegisterResult.userNotFound, [], db)
    | some user =>
      if hasFaceVector user then (RegisterResult.alreadyRegistered, [], db)
      else
        let pool := otherUsersWithFaces user.usrId db
        if pool.isEmpty then registerEmbed img [] db user embedFetch
        else
          let req := OracleRequest.duplicateCheck img (storedEmbeddingsOf pool) (65 / 100)
          match (fetchWithRetry dupFetch 1).1 with
          | none => (RegisterResult.serviceError, [req], db)
          | some r =>
            if !r.ok then (RegisterResult.dupCheckFailed, [req], db)
            else if r.body.is_duplicate then
              (RegisterResult.duplicateFace r.body.existing_name, [req], db)
            else registerEmbed img [req] db user embedFetch

/-- Modelled from the spec: the external duplicate-check scorer, whose
code is not part of this repository, reports a duplicate exactly when
the probe's best similarity to any stored profile meets or exceeds the
threshold it was given. -/
def oracleDuplicateVerdict (bestSim threshold : ℚ) : Bool :=
  threshold ≤ bestSim

/-- The status stored for a (userId, date) key, read back the way the
routes read it. -/
def statusOf (db : DB) (uid d : String) : Option String :=
  (markFind uid d db).map (fun r => r.status)

/-- The store with the livenessRequired setting forced to `b` and
everything else unchanged. -/
def withLivenessRequired (b : Bool) (db : DB) : DB :=
  { db with settings := db.settings.map (fun s =>
      { s with faceRecognition := s.faceRecognition.map (fun fr =>
          { fr with livenessRequired := b }) }) }

/-- A match response body with its liveness field replaced. -/
def MatchData.withLiveness (d : MatchData) (b : Option Bool) : MatchData :=
  { d with liveness := b }

/-- A fetch outcome with the liveness field of its body replaced. -/
def FetchOutcome.withLiveness (o : FetchOutcome MatchData) (b : Option Bool) :
    FetchOutcome MatchData :=
  match o with
  | FetchOutcome.thrown => FetchOutcome.thrown
  | FetchOutcome.resp r => FetchOutcome.resp { r with body := r.body.withLiveness b }

/-- A match responder with the liveness field of every response replaced. -/
def withLivenessFetcher (f : Nat → FetchOutcome MatchData) (b : Option Bool) :
    Nat → FetchOutcome MatchData :=
  fun n => (f n).withLiveness b

/-- A scan result with the liveness it reports replaced. -/
def ScanResult.withLiveness (s : ScanResult) (b : Option Bool) : ScanResult :=
  match s with
  | ScanResult.recognized uid nm conf _ => ScanResult.recognized uid nm conf b
  | other => other

/-! ### Concrete fixtures used to instantiate the theorems -/

/-- An enrolled-free active user. -/
def cAlice : User := { usrId := "u1", name := "Alice", status := "active", faceEmbedding := none }

/-- An inactive user who does have a stored face. -/
def cBob : User :=
  { usrId := "u2", name := "Bob", status := "inactive"
    faceEmbedding := some { vector := [1, 2], thumbnail := none } }

/-- An active user with a stored face. -/
def cCarol : User :=
  { usrId := "u3", name := "Carol", status := "active"
    faceEmbedding := some { vector := [5], thumbnail := none } }

/-- A store holding only Alice, with no attendance and no settings. -/
def cDb0 : DB := { users := [cAlice], attendance := [], settings := none, nextId := 0 }

/-- A mark request for Alice carrying a confidence of 87. -/
def cReq : MarkRequest :=
  { userId := some "u1", confidence := some 87, liveness := none, method := none }

/-- A wall clock reading 09:45 on 2026-10-11. -/
def cT945 : Time := { ms := 1000000, hours := 9, minutes := 45, dateStr := "2026-10-11" }

/-- A wall clock reading 09:15 on 2026-10-11. -/
def cT915 : Time := { ms := 1000000, hours := 9, minutes := 15, dateStr := "2026-10-11" }

/-- A wall clock two minutes (120000 ms) after `cT945`, same day. -/
def cT2min : Time := { ms := 1120000, hours := 9, minutes := 47, dateStr := "2026-10-11" }

/-- The attendance record created by Alice checking in at `cT945`. -/
def cRecIn : AttendanceRecord :=
  { recId := 0, userId := "u1", date := "2026-10-11"
    checkIn := some { time := 1000000, confidence := 87, method := "face_scan", liveness := true }
    checkOut := none, status := "present", createdAt := 1000000 }

/-- The store after Alice checked in at `cT945`. -/
def cDbIn : DB := { users := [cAlice], attendance := [cRecIn], settings := none, nextId := 1 }

/-- The store after Alice checked in and out. -/
def cDbDone : DB :=
  { users := [cAlice]
    attendance := [{ cRecIn with
      checkOut := some { time := 2000000, confidence := 87, method := "face_scan", liveness := true } }]
    settings := none, nextId := 1 }

/-- Admin settings with a 09:30 arrival deadline and both face-matching
thresholds tuned to 0.9, away from their defaults. -/
def cSettingsTuned : Settings :=
  { arrivalDeadline := some "09:30"
    faceRecognition := some
      { matchThreshold := 9 / 10, duplicateThreshold := 9 / 10
        livenessRequired := true, maxScanAttempts := 10 } }

/-- A store holding Carol (enrolled, active) and the tuned settings. -/
def cDbTuned : DB := { users := [cCarol], attendance := [], settings := some cSettingsTuned, nextId := 0 }

/-- A store holding Alice and a 09:30 arrival deadline. -/
def cDb930 : DB :=
  { users := [cAlice], attendance := []
    settings := some { arrivalDeadline := some "09:30", faceRecognition := none }, nextId := 0 }

/-- A store with no active enrolled profile: Alice has no face and Bob is
inactive. -/
def cDbNoProfiles : DB := { users := [cAlice, cBob], attendance := [], settings := none, nextId := 0 }

/-- A suspended user. -/
def cSue : User := { usrId := "u9", name := "Sue", status := "suspended", faceEmbedding := none }

/-- A store holding only the suspended user Sue. -/
def cDbSue : DB := { users := [cSue], attendance := [], settings := none, nextId := 0 }

/-- A mark request that targets Sue with a confidence of 999. -/
def cReqSue : MarkRequest :=
  { userId := some "u9", confidence := some 999, liveness := none, method := none }

/-- A match responder that always answers 200 with a non-match. -/
def cMatchMiss : Nat → FetchOutcome MatchData := fun _ =>
  FetchOutcome.resp
    ⟨200, { matched := false, user_id := none, confidence := 0, liveness := none, best_score := 1 / 2 }⟩

/-- A store holding Alice (no face) and Carol (enrolled). -/
def cDbAliceCarol : DB := { users := [cAlice, cCarol], attendance := [], settings := none, nextId := 0 }

/-- A duplicate-check responder whose verdict is the spec-modelled
oracle at best similarity 0.7, owner Carol. -/
def cDupYes : Nat → FetchOutcome DupData := fun _ =>
  FetchOutcome.resp
    ⟨200, { is_duplicate := oracleDuplicateVerdict (7 / 10) (65 / 100), existing_name := some "Carol" }⟩

/-- A duplicate-check responder that reports a duplicate owned by Carol. -/
def cDupTrue : Nat → FetchOutcome DupData := fun _ =>
  FetchOutcome.resp ⟨200, { is_duplicate := true, existing_name := some "Carol" }⟩

/-- A mark request for Alice whose liveness object carries is_live false. -/
def cReqNotLive : MarkRequest :=
  { userId := some "u1", confidence := some 87, liveness := some (some false), method := none }

/-- A match responder that answers 200 with a match on Carol. -/
def cMatchCarol : Nat → FetchOutcome MatchData := fun _ =>
  FetchOutcome.resp
    ⟨200, { matched := true, user_id := some "u3", confidence := 91, liveness := some true
            best_score := 91 / 100 }⟩

/-! ### Helper lemmas -/

theorem find?_append_none {α : Type} {p : α → Bool} {l₁ l₂ : List α}
    (h : l₁.find? p = none) : (l₁ ++ l₂).find? p = l₂.find? p := by
  rw [List.find?_append, h, Option.none_or]

theorem find?_map_of_pred_inv {α : Type} {p : α → Bool} {f : α → α}
    (hf : ∀ x, p (f x) = p x) :
    ∀ {l : List α} {a : α}, l.find? p = some a → (l.map f).find? p = some (f a) := by
  intro l
  induction l with
  | nil => intro a h; cases h
  | cons b t ih =>
      intro a h
      rw [List.find?_cons] at h
      rw [List.map_cons, List.find?_cons]
      cases hpb : p b with
      | true =>
          rw [hpb] at h
          cases h
          simp [hf b, hpb]
      | false =>
          rw [hpb] at h
          simp only [hf b, hpb]
          exact ih h

/-- When the validations pass, the mark route is exactly the
find-then-apply sequence on the attendance store; the interleaving model
`twoMarksInterleaved` interleaves these two halves. -/
theorem mark_eq_find_apply (req : MarkRequest) (now : Time) (db : DB) (uid : String)
    (hreq : req.userId = some uid)
    (huser : (db.users.find? (fun u => u.usrId == uid)).isSome) :
    mark req now db = markApply req now uid (markFind uid now.dateStr db) db := by
  obtain ⟨u, hu⟩ := Option.isSome_iff_exists.mp huser
  simp [mark, hreq, hu]

/-- A fresh-key mark call is the check-in insert. -/
theorem mark_checkin_eq (req : MarkRequest) (now : Time) (db : DB) (uid : String)
    (hreq : req.userId = some uid)
    (huser : (db.users.find? (fun u => u.usrId == uid)).isSome)
    (hfresh : markFind uid now.dateStr db = none) :
    mark req now db =
      (MarkResult.checkInOk (isLateAt now (effectiveDeadline db)),
       { db with attendance := db.attendance ++ [newRecordOf req now uid db]
                 nextId := db.nextId + 1 }) := by
  rw [mark_eq_find_apply req now db uid hreq huser, hfresh]
  rfl

/-- After the check-in insert, the key lookup finds the inserted record. -/
theorem markFind_insert (req : MarkRequest) (now : Time) (uid : String) (db : DB) (n : Nat)
    (hfresh : markFind uid now.dateStr db = none) :
    markFind uid now.dateStr
      { db with attendance := db.attendance ++ [newRecordOf req now uid db], nextId := n } =
      some (newRecordOf req now uid db) := by
  unfold markFind at hfresh ⊢
  rw [find?_append_none hfresh, List.find?_cons]
  simp [newRecordOf]

/-- Forcing livenessRequired leaves the effective deadline unchanged. -/
theorem effectiveDeadline_withLivenessRequired (b : Bool) (db : DB) :
    effectiveDeadline (withLivenessRequired b db) = effectiveDeadline db := by
  cases hs : db.settings <;> simp [effectiveDeadline, withLivenessRequired, hs]

/-- A mark call whose attendance lookup returns a record without a
checkOut performs the unconditional checkOut update. -/
theorem mark_checkout_eq (req : MarkRequest) (now : Time) (db : DB) (uid : String)
    (u : User) (att : AttendanceRecord)
    (hreq : req.userId = some uid)
    (hu : db.users.find? (fun v => v.usrId == uid) = some u)
    (hfind : markFind uid now.dateStr db = some att)
    (hco : att.checkOut = none) :
    mark req now db =
      (MarkResult.checkOutOk,
       { db with attendance :=
          db.attendance.map (fun a =>
            if a.recId == att.recId then { a with checkOut := some (checkRecOf req now) } else a) }) := by
  rw [mark_eq_find_apply req now db uid hreq (by rw [hu]; rfl), hfind]
  simp [markApply, hco]

/-- The attempt loop commutes with a body transformation that preserves
the response status, in particular with replacing the liveness field. -/
theorem fetchAttempts_withLiveness (f : Nat → FetchOutcome MatchData) (b : Option Bool)
    (retries : Nat) :
    ∀ (fuel attempt : Nat),
      fetchAttempts (withLivenessFetcher f b) retries fuel attempt =
        (((fetchAttempts f retries fuel attempt).1).map
            (fun r => { r with body := r.body.withLiveness b }),
         (fetchAttempts f retries fuel attempt).2) := by
  intro fuel
  induction fuel with
  | zero => intro attempt; rfl
  | succ fuel ih =>
      intro attempt
      cases hf : f attempt with
      | thrown =>
          have hsc : withLivenessFetcher f b attempt = FetchOutcome.thrown := by
            simp [withLivenessFetcher, hf, FetchOutcome.withLiveness]
          simp only [fetchAttempts, hf, hsc]
          by_cases hc : attempt < retries
          · simp only [if_pos hc, ih]
          · simp only [if_neg hc]
            rfl
      | resp r =>
          have hsc : withLivenessFetcher f b attempt =
              FetchOutcome.resp { r with body := r.body.withLiveness b } := by
            simp [withLivenessFetcher, hf, FetchOutcome.withLiveness]
          simp only [fetchAttempts, hf, hsc]
          by_cases hc : 500 ≤ r.status ∧ attempt < retries
          · simp only [if_pos hc, ih]
          · simp only [if_neg hc]
            rfl

/-- The scan route passes the liveness reported by the scorer straight
through: replacing the liveness in every oracle response replaces it in
the recognized outcome and changes nothing else — in particular no
branch of the route consults it. -/
theorem scan_withLiveness (img? : Option String) (db : DB)
    (f : Nat → FetchOutcome MatchData) (b : Option Bool) :
    scan img? db (withLivenessFetcher f b) =
      (((scan img? db f).1).withLiveness b, (scan img? db f).2) := by
  cases img? with
  | none => rfl
  | some img =>
    simp only [scan]
    by_cases hemp : (activeUsersWithFaces db).isEmpty
    · simp only [if_pos hemp]
      rfl
    · simp only [if_neg hemp]
      have hfw : (fetchWithRetry (withLivenessFetcher f b) 1).1 =
          ((fetchWithRetry f 1).1).map (fun r => { r with body := r.body.withLiveness b }) := by
        rw [fetchWithRetry, fetchWithRetry, fetchAttempts_withLiveness]
      rw [hfw]
      cases hres : (fetchWithRetry f 1).1 with
      | none => rfl
      | some r =>
          simp only [Option.map_some]
          by_cases hok : r.ok
          · have hok2 : HttpResponse.ok { status := r.status, body := r.body.withLiveness b } = true := hok
            by_cases hm : r.body.matched
            · have hm2 : (r.body.withLiveness b).matched = true := hm
              cases hfind : (activeUsersWithFaces db).find? (fun u => some u.usrId == r.body.user_id) with
              | none =>
                  simp [hok, hok2, hm, hm2, MatchData.withLiveness, ScanResult.withLiveness, hfind]
                  exact hok
              | some u =>
                  simp [hok, hok2, hm, hm2, MatchData.withLiveness, ScanResult.withLiveness, hfind]
                  exact hok
            · have hm' : r.body.matched = false := Bool.eq_false_iff.mpr hm
              have hm2 : (r.body.withLiveness b).matched = false := hm'
              simp [hok, hok2, hm', hm2, MatchData.withLiveness, ScanResult.withLiveness]
              exact hok
          · have hok' : r.ok = false := Bool.eq_false_iff.mpr hok
            have hok2 : HttpResponse.ok { status := r.status, body := r.body.withLiveness b } = false := hok'
            simp [hok', hok2, ScanResult.withLiveness]

/-- The mark route reads the store only through its users, attendance,
id counter and effective deadline: two stores agreeing on those produce
the same outcome and the same attendance list. -/
theorem mark_depends_on (req : MarkRequest) (now : Time) (db₁ db₂ : DB)
    (hu : db₁.users = db₂.users) (ha : db₁.attendance = db₂.attendance)
    (hn : db₁.nextId = db₂.nextId) (hd : effectiveDeadline db₁ = effectiveDeadline db₂) :
    (mark req now db₁).1 = (mark req now db₂).1 ∧
    (mark req now db₁).2.attendance = (mark req now db₂).2.attendance := by
  refine ⟨?_, ?_⟩ <;>
  · rcases hq : req.userId with _ | uid
    · simp [mark, hq, ha]
    · rcases hfu : List.find? (fun u => u.usrId == uid) db₂.users with _ | u
      · simp [mark, hq, hu, hfu, ha]
      · rcases hmf : List.find? (fun a => a.userId == uid && a.date == now.dateStr)
            db₂.attendance with _ | att
        · simp [mark, markApply, markFind, newRecordOf, hq, hu, ha, hn, hd, hfu, hmf]
        · by_cases hco : att.checkOut.isSome
          · simp [mark, markApply, markFind, hq, hu, ha, hn, hfu, hmf, hco]
          · simp [mark, markApply, markFind, hq, hu, ha, hn, hfu, hmf, hco]

/-- Records counted with a check-in are a subset of the records counted
for the key. -/
theorem checkInCount_le_keyCount (uid d : String) (db : DB) :
    checkInCount uid d db ≤ keyCount uid d db := by
  apply List.countP_mono_left
  intro a _ h
  simp only [Bool.and_eq_true] at h ⊢
  exact h.1

/-- The scan route places either no request or exactly the one /match
request with the hardcoded threshold 0.55. -/
theorem scan_log (img : String) (db : DB) (f : Nat → FetchOutcome MatchData) :
    (scan (some img) db f).2 = [] ∨
    (scan (some img) db f).2 =
      [OracleRequest.matchFaces img (storedEmbeddingsOf (activeUsersWithFaces db)) (55 / 100)] := by
  simp only [scan]
  by_cases hemp : (activeUsersWithFaces db).isEmpty
  · left
    simp [hemp]
  · right
    simp only [if_neg hemp]
    rcases hf : (fetchWithRetry f 1).1 with _ | resp
    · simp [hf]
    · simp only [hf]
      split
      · rfl
      · split
        · rfl
        · split <;> rfl

/-- Every request the register route places is either the
/duplicate-check request with the hardcoded threshold 0.65 or the
/embed request. -/
theorem register_log (callerId img : String) (db : DB)
    (df : Nat → FetchOutcome DupData) (ef : Nat → FetchOutcome EmbedData) :
    ∀ r ∈ (register callerId (some img) db df ef).2.1,
      (∃ embs, r = OracleRequest.duplicateCheck img embs (65 / 100)) ∨
      r = OracleRequest.embedFace img := by
  intro r hr
  simp only [register] at hr
  rcases hfu : db.users.find? (fun u => u.usrId == callerId) with _ | user
  · rw [hfu] at hr
    simp at hr
  · rw [hfu] at hr
    simp only at hr
    by_cases hface : hasFaceVector user
    · rw [if_pos hface] at hr
      simp at hr
    · rw [if_neg hface] at hr
      by_cases hpool : (otherUsersWithFaces user.usrId db).isEmpty
      · rw [if_pos hpool] at hr
        simp only [registerEmbed] at hr
        rcases hef : (fetchWithRetry ef 1).1 with _ | r2
        · rw [hef] at hr
          simp at hr
          right
          exact hr
        · rw [hef] at hr
          simp only at hr
          split at hr <;> · simp at hr; right; exact hr
      · rw [if_neg hpool] at hr
        rcases hdf : (fetchWithRetry df 1).1 with _ | r1
        · rw [hdf] at hr
          simp at hr
          left
          exact ⟨_, hr⟩
        · rw [hdf] at hr
          simp only at hr
          split at hr
          · simp at hr
            left
            exact ⟨_, hr⟩
          · split at hr
            · simp at hr
              left
              exact ⟨_, hr⟩
            · simp only [registerEmbed] at hr
              rcases hef : (fetchWithRetry ef 1).1 with _ | r2
              · rw [hef] at hr
                simp at hr
                rcases hr with h | h
                · left; exact ⟨_, h⟩
                · right; exact h
              · rw [hef] at hr
                simp only at hr
                split at hr <;>
                · simp at hr
                  rcases hr with h | h
                  · left; exact ⟨_, h⟩
                  · right; exact h

/-- The outcome of the mark route does not depend on the liveness field
of the request body. -/
theorem mark_fst_liveness_irrelevant (req : MarkRequest) (now : Time) (db : DB)
    (l : Option (Option Bool)) :
    (mark { req with liveness := l } now db).1 = (mark req now db).1 := by
  rcases hq : req.userId with _ | uid
  · simp [mark, hq]
  · rcases hfu : db.users.find? (fun u => u.usrId == uid) with _ | u
    · simp [mark, hq, hfu]
    · rcases hmf : markFind uid now.dateStr db with _ | att
      · simp [mark, markApply, hq, hfu, hmf]
      · by_cases hco : att.checkOut.isSome
        · simp [mark, markApply, hq, hfu, hmf, hco]
        · simp [mark, markApply, hq, hfu, hmf, hco]

end Attendance

namespace Attendance

/-! ### The claims -/

/-- C1, counterexample: two mark calls for the same (userId, date) key
interleaved at the await boundary between the attendance `findOne` and
the insert both observe an empty key and both insert, so two check-in
transitions succeed and the key ends with two stored check-ins. The
NeDB store has no unique (userId, date) index
(src/unnamed/part_001, config/db: only `date` is indexed, with the
comment that compound uniqueness is enforced in code), so the second
insert is not rejected. -/
theorem c1_interleaved_double_checkin :
    (twoMarksInterleaved cReq cReq cT945 cT945 "u1" cDb0).1 = MarkResult.checkInOk true ∧
    (twoMarksInterleaved cReq cReq cT945 cT945 "u1" cDb0).2.1 = MarkResult.checkInOk true ∧
    checkInCount "u1" "2026-10-11" (twoMarksInterleaved cReq cReq cT945 cT945 "u1" cDb0).2.2 = 2 ∧
    keyCount "u1" "2026-10-11" (twoMarksInterleaved cReq cReq cT945 cT945 "u1" cDb0).2.2 = 2 := by
  decide

/-- C2, code evidence at the failing input: the runnable mark handler
(src/unnamed/part_003) has no cooldown test, so a mark call two minutes
(120000 ms, well under the 300000 ms cooldown) after the stored check-in
performs the check-out and mutates the record instead of failing with
the cooldown rejection. -/
theorem c2_checkout_within_cooldown_mutates :
    cT2min.ms - 1000000 < 300000 ∧
    (mark cReq cT2min cDbIn).1 = MarkResult.checkOutOk ∧
    markFind "u1" "2026-10-11" (mark cReq cT2min cDbIn).2 =
      some { cRecIn with checkOut := some (checkRecOf cReq cT2min) } ∧
    (mark cReq cT2min cDbIn).2 ≠ cDbIn := by
  decide

/-- C3: a mark call whose attendance lookup returns a record that
already has a checkOut is rejected with the already-complete outcome
and the store is returned unchanged; the wall-clock time is arbitrary,
so this holds regardless of the time elapsed since check-in. -/
theorem c3_already_complete_unchanged
    (req : MarkRequest) (now : Time) (db : DB) (uid : String) (att : AttendanceRecord)
    (hreq : req.userId = some uid)
    (huser : (db.users.find? (fun u => u.usrId == uid)).isSome)
    (hfind : markFind uid now.dateStr db = some att)
    (hco : att.checkOut.isSome) :
    mark req now db = (MarkResult.alreadyComplete, db) := by
  rw [mark_eq_find_apply req now db uid hreq huser, hfind]
  simp [markApply, hco]

/-- C3 witness: the rejection at a concrete checked-out record. -/
theorem c3_already_complete_unchanged_witness :
    mark cReq cT2min cDbDone = (MarkResult.alreadyComplete, cDbDone) :=
  c3_already_complete_unchanged cReq cT2min cDbDone "u1"
    ((cDbDone.attendance).head (by decide))
    (by decide) (by decide) (by decide) (by decide)

/-- C6: a scan against a store with no active enrolled profile returns
the no-profiles failure and places no request against the face-scoring
service. -/
theorem c6_no_profiles_no_oracle (img : String) (db : DB)
    (f : Nat → FetchOutcome MatchData)
    (h : activeUsersWithFaces db = []) :
    scan (some img) db f = (ScanResult.noProfiles, []) := by
  simp [scan, h]

/-- C6 witness: a store whose only users are an active user without a
face and an inactive user with one. -/
theorem c6_no_profiles_no_oracle_witness :
    activeUsersWithFaces cDbNoProfiles = [] ∧
    scan (some "probe") cDbNoProfiles (fun _ => FetchOutcome.thrown) = (ScanResult.noProfiles, []) :=
  ⟨by decide, c6_no_profiles_no_oracle "probe" cDbNoProfiles (fun _ => FetchOutcome.thrown) (by decide)⟩

/-- C4, counterexample: with the stored match threshold tuned to 0.9,
the very next scan still sends the hardcoded 0.55 to the scorer
(face routes, `threshold: 0.55` and `threshold: 0.65` literals), so the
threshold is not read from the stored settings at call time. -/
theorem c4_hardcoded_threshold_counterexample :
    ((cDbTuned.settings.bind (fun s => s.faceRecognition)).map (fun fr => fr.matchThreshold)) =
      some (9 / 10) ∧
    (scan (some "probe") cDbTuned cMatchMiss).2 =
      [OracleRequest.matchFaces "probe"
        [{ user_id := "u3", name := "Carol", embedding := [5] }] (55 / 100)] ∧
    (55 : ℚ) / 100 ≠ 9 / 10 := by
  refine ⟨rfl, rfl, by norm_num⟩

/-- C5: on a first mark of the day with a deadline that parses as
(dH, dM), the stored status is late exactly when the wall-clock hour is
greater than dH, or equal to dH with the minute greater than dM, and
present otherwise. -/
theorem c5_late_iff_strictly_after_deadline
    (req : MarkRequest) (now : Time) (db : DB) (uid : String) (dH dM : Nat)
    (hreq : req.userId = some uid)
    (huser : (db.users.find? (fun u => u.usrId == uid)).isSome)
    (hfresh : markFind uid now.dateStr db = none)
    (hH : deadlineHour (effectiveDeadline db) = some dH)
    (hM : deadlineMinute (effectiveDeadline db) = some dM) :
    statusOf (mark req now db).2 uid now.dateStr =
      some (if now.hours > dH ∨ (now.hours = dH ∧ now.minutes > dM)
            then "late" else "present") := by
  rw [statusOf, mark_checkin_eq req now db uid hreq huser hfresh,
      markFind_insert req now uid db _ hfresh]
  have hb : (isLateAt now (effectiveDeadline db) = true) ↔
      (now.hours > dH ∨ (now.hours = dH ∧ now.minutes > dM)) := by
    simp [isLateAt, natGtNum, natEqNum, hH, hM]
  by_cases hc : now.hours > dH ∨ (now.hours = dH ∧ now.minutes > dM)
  · simp [newRecordOf, hb.mpr hc, hc]
  · have hfalse : isLateAt now (effectiveDeadline db) = false := by
      cases hl : isLateAt now (effectiveDeadline db) with
      | true => exact absurd (hb.mp hl) hc
      | false => rfl
    simp [newRecordOf, hfalse, hc]

/-- C5 witness: with arrivalDeadline 09:30, a 09:45 check-in stores
status late and a 09:15 check-in stores status present. -/
theorem c5_late_iff_strictly_after_deadline_witness :
    statusOf (mark cReq cT945 cDb930).2 "u1" "2026-10-11" = some "late" ∧
    statusOf (mark cReq cT915 cDb930).2 "u1" "2026-10-11" = some "present" :=
  ⟨(c5_late_iff_strictly_after_deadline cReq cT945 cDb930 "u1" 9 30
      rfl (by decide) (by decide) (by decide) (by decide)).trans (by decide),
   (c5_late_iff_strictly_after_deadline cReq cT915 cDb930 "u1" 9 30
      rfl (by decide) (by decide) (by decide) (by decide)).trans (by decide)⟩

/-- C8: the retry helper with its default budget of one extra attempt:
a first response below 500 is returned at once after a single fetch; a
first 5xx response or a first thrown connection failure is followed by
exactly one retry whose response is returned; two straight connection
failures exhaust the budget and the exception surfaces (`none`), which
the scan route reports as its service-unavailable outcome. -/
theorem c8_retry_policy :
    (∀ (β : Type) (f : Nat → FetchOutcome β) (r : HttpResponse β),
        f 0 = FetchOutcome.resp r → r.status < 500 →
        fetchWithRetry f 1 = (some r, 1)) ∧
    (∀ (β : Type) (f : Nat → FetchOutcome β) (r : HttpResponse β),
        (f 0 = FetchOutcome.thrown ∨ ∃ r0, f 0 = FetchOutcome.resp r0 ∧ 500 ≤ r0.status) →
        f 1 = FetchOutcome.resp r →
        fetchWithRetry f 1 = (some r, 2)) ∧
    (∀ (β : Type) (f : Nat → FetchOutcome β),
        f 0 = FetchOutcome.thrown → f 1 = FetchOutcome.thrown →
        fetchWithRetry f 1 = (none, 2)) ∧
    (∀ (img : String) (db : DB) (g : Nat → FetchOutcome MatchData),
        g 0 = FetchOutcome.thrown → g 1 = FetchOutcome.thrown →
        activeUsersWithFaces db ≠ [] →
        (scan (some img) db g).1 = ScanResult.serviceError) := by
  refine ⟨?_, ?_, ?_, ?_⟩
  · intro β f r h0 hlt
    have hn : ¬(500 ≤ r.status) := by omega
    simp [fetchWithRetry, fetchAttempts, h0, hn]
  · intro β f r hfail h1
    rcases hfail with h0 | ⟨r0, h0, h500⟩
    · simp [fetchWithRetry, fetchAttempts, h0, h1]
    · have hc : 500 ≤ r0.status ∧ 0 < 1 := ⟨h500, by omega⟩
      simp [fetchWithRetry, fetchAttempts, h0, h1, hc]
  · intro β f h0 h1
    simp [fetchWithRetry, fetchAttempts, h0, h1]
  · intro img db g h0 h1 hne
    have hemp : (activeUsersWithFaces db).isEmpty = false := by
      cases hx : activeUsersWithFaces db with
      | nil => exact absurd hx hne
      | cons a t => rfl
    simp [scan, hemp, fetchWithRetry, fetchAttempts, h0, h1]

/-- C8 witness: a 404 is returned after one attempt; a throw followed by
a 200 returns the 200 after two attempts; two throws surface the
exception; two throws on the match call drive the scan route to its
service-unavailable outcome. -/
theorem c8_retry_policy_witness :
    fetchWithRetry (fun _ => (FetchOutcome.resp ⟨404, 0⟩ : FetchOutcome Nat)) 1 =
      (some ⟨404, 0⟩, 1) ∧
    fetchWithRetry
      (fun n => if n == 0 then FetchOutcome.thrown else (FetchOutcome.resp ⟨200, 5⟩ : FetchOutcome Nat)) 1 =
      (some ⟨200, 5⟩, 2) ∧
    fetchWithRetry (fun _ => (FetchOutcome.thrown : FetchOutcome Nat)) 1 = (none, 2) ∧
    (scan (some "probe") cDbTuned (fun _ => FetchOutcome.thrown)).1 = ScanResult.serviceError :=
  ⟨c8_retry_policy.1 Nat _ ⟨404, 0⟩ rfl (by decide),
   c8_retry_policy.2.1 Nat _ ⟨200, 5⟩ (Or.inl rfl) rfl,
   c8_retry_policy.2.2.1 Nat _ rfl rfl,
   c8_retry_policy.2.2.2 "probe" cDbTuned _ rfl rfl (by decide)⟩

/-- C10: the mark route ignores the authenticated caller entirely, and
for any existing target user, with no constraint on that user's status,
a fresh-day mark succeeds as a check-in that stores the request body's
confidence verbatim (absent confidence defaulting to 0). -/
theorem c10_mark_trusts_request_body :
    (∀ (c₁ c₂ : String) (req : MarkRequest) (now : Time) (db : DB),
        markWithCaller c₁ req now db = markWithCaller c₂ req now db) ∧
    (∀ (req : MarkRequest) (now : Time) (db : DB) (uid : String) (u : User),
        req.userId = some uid →
        db.users.find? (fun v => v.usrId == uid) = some u →
        markFind uid now.dateStr db = none →
        (mark req now db).1 = MarkResult.checkInOk (isLateAt now (effectiveDeadline db)) ∧
        ∃ r, markFind uid now.dateStr (mark req now db).2 = some r ∧
             r.checkIn = some (checkRecOf req now) ∧
             r.checkOut = none ∧
             (checkRecOf req now).confidence = req.confidence.getD 0) := by
  constructor
  · intro _ _ _ _ _
    rfl
  · intro req now db uid u hreq hu hfresh
    have hm := mark_checkin_eq req now db uid hreq (by rw [hu]; rfl) hfresh
    rw [hm]
    exact ⟨rfl, newRecordOf req now uid db,
      markFind_insert req now uid db _ hfresh, rfl, rfl, rfl⟩

/-- C10 witness: a caller distinct from the target, a suspended target
user, and an arbitrary confidence of 999 still produce a successful
check-in recording that confidence. -/
theorem c10_mark_trusts_request_body_witness :
    (markWithCaller "admin7" cReqSue cT945 cDbSue = markWithCaller "u9" cReqSue cT945 cDbSue) ∧
    cSue.status = "suspended" ∧
    (mark cReqSue cT945 cDbSue).1 = MarkResult.checkInOk (isLateAt cT945 (effectiveDeadline cDbSue)) ∧
    ∃ r, markFind "u9" "2026-10-11" (mark cReqSue cT945 cDbSue).2 = some r ∧
         r.checkIn = some (checkRecOf cReqSue cT945) ∧
         r.checkOut = none ∧
         (checkRecOf cReqSue cT945).confidence = (cReqSue.confidence).getD 0 :=
  ⟨c10_mark_trusts_request_body.1 "admin7" "u9" cReqSue cT945 cDbSue,
   rfl,
   (c10_mark_trusts_request_body.2 cReqSue cT945 cDbSue "u9" cSue rfl (by decide) (by decide)).1,
   (c10_mark_trusts_request_body.2 cReqSue cT945 cDbSue "u9" cSue rfl (by decide) (by decide)).2⟩

/-- C7: when the duplicate-check pool is non-empty and the scorer, whose
verdict is spec-modelled as best-similarity-meets-threshold, reports a
duplicate, the register route aborts with the duplicate-face outcome
naming the existing owner; its only request to the face service is the
duplicate check (no /embed request appears in the log) and the store is
returned unchanged, so no embedding is created or stored. -/
theorem c7_duplicate_face_aborts
    (callerId img nm : String) (db : DB) (user : User) (bestSim : ℚ)
    (df : Nat → FetchOutcome DupData) (ef : Nat → FetchOutcome EmbedData)
    (hfind : db.users.find? (fun u => u.usrId == callerId) = some user)
    (hnoface : hasFaceVector user = false)
    (hpool : (otherUsersWithFaces user.usrId db).isEmpty = false)
    (hresp : df 0 = FetchOutcome.resp ⟨200,
       { is_duplicate := oracleDuplicateVerdict bestSim (65 / 100), existing_name := some nm }⟩)
    (hsim : (65 : ℚ) / 100 ≤ bestSim) :
    register callerId (some img) db df ef =
      (RegisterResult.duplicateFace (some nm),
       [OracleRequest.duplicateCheck img
          (storedEmbeddingsOf (otherUsersWithFaces user.usrId db)) (65 / 100)],
       db) := by
  have hdup : oracleDuplicateVerdict bestSim (65 / 100) = true := by
    simp [oracleDuplicateVerdict, hsim]
  simp [register, hfind, hnoface, hpool, fetchWithRetry, fetchAttempts, hresp, hdup,
    HttpResponse.ok]

/-- C7 witness: Alice enrolling a probe whose best similarity 0.7 to
Carol's profile exceeds the 0.65 duplicate threshold is rejected with
Carol named, only the duplicate-check request is placed, and the store
is unchanged. -/
theorem c7_duplicate_face_aborts_witness :
    register "u1" (some "probe") cDbAliceCarol cDupYes (fun _ => FetchOutcome.thrown) =
      (RegisterResult.duplicateFace (some "Carol"),
       [OracleRequest.duplicateCheck "probe"
          (storedEmbeddingsOf (otherUsersWithFaces "u1" cDbAliceCarol)) (65 / 100)],
       cDbAliceCarol) :=
  c7_duplicate_face_aborts "u1" "probe" "Carol" cDbAliceCarol cAlice (7 / 10)
    cDupYes (fun _ => FetchOutcome.thrown)
    (by decide) (by decide) (by decide) rfl (by norm_num)

/-- C9: the liveness flag stored by the mark route is the request's
liveness.is_live when supplied, and true when the liveness object or its
is_live field is absent; the stored sub-records carry exactly that flag
on both the check-in and the check-out path; the mark outcome never
depends on the liveness input nor on the livenessRequired setting; and
the scan route passes the scorer's liveness through without consulting
it, so no mark or scan is ever rejected for failed liveness. -/
theorem c9_liveness_recorded_never_gating :
    (∀ b : Bool, livenessFlag (some (some b)) = b) ∧
    livenessFlag none = true ∧
    livenessFlag (some none) = true ∧
    (∀ (req : MarkRequest) (now : Time),
        (checkRecOf req now).liveness = livenessFlag req.liveness) ∧
    (∀ (req : MarkRequest) (now : Time) (db : DB) (uid : String) (u : User),
        req.userId = some uid →
        db.users.find? (fun v => v.usrId == uid) = some u →
        markFind uid now.dateStr db = none →
        ∃ r, markFind uid now.dateStr (mark req now db).2 = some r ∧
          r.checkIn = some (checkRecOf req now)) ∧
    (∀ (req : MarkRequest) (now : Time) (db : DB) (uid : String) (u : User)
        (att : AttendanceRecord),
        req.userId = some uid →
        db.users.find? (fun v => v.usrId == uid) = some u →
        markFind uid now.dateStr db = some att → att.checkOut = none →
        ∃ r, markFind uid now.dateStr (mark req now db).2 = some r ∧
          r.checkOut = some (checkRecOf req now)) ∧
    (∀ (req : MarkRequest) (now : Time) (db : DB) (l : Option (Option Bool)),
        (mark { req with liveness := l } now db).1 = (mark req now db).1) ∧
    (∀ (req : MarkRequest) (now : Time) (db : DB) (b : Bool),
        (mark req now (withLivenessRequired b db)).1 = (mark req now db).1 ∧
        (mark req now (withLivenessRequired b db)).2.attendance =
          (mark req now db).2.attendance) ∧
    (∀ (img : Option String) (db : DB) (f : Nat → FetchOutcome MatchData) (b : Option Bool),
        scan img db (withLivenessFetcher f b) =
          (((scan img db f).1).withLiveness b, (scan img db f).2)) := by
  refine ⟨fun b => rfl, rfl, rfl, fun req now => rfl, ?_, ?_, ?_, ?_, ?_⟩
  · intro req now db uid u hreq hu hfresh
    rw [mark_checkin_eq req now db uid hreq (by rw [hu]; rfl) hfresh]
    exact ⟨newRecordOf req now uid db, markFind_insert req now uid db _ hfresh, rfl⟩
  · intro req now db uid u att hreq hu hfind hco
    rw [mark_checkout_eq req now db uid u att hreq hu hfind hco]
    refine ⟨{ att with checkOut := some (checkRecOf req now) }, ?_, rfl⟩
    unfold markFind at hfind ⊢
    have hmap := @find?_map_of_pred_inv AttendanceRecord
      (fun a => a.userId == uid && a.date == now.dateStr)
      (fun a =>
        if a.recId == att.recId then { a with checkOut := some (checkRecOf req now) } else a)
      (by intro x; dsimp only; split <;> rfl)
      db.attendance att hfind
    have hfatt : (fun a =>
        if a.recId == att.recId then { a with checkOut := some (checkRecOf req now) } else a) att
        = { att with checkOut := some (checkRecOf req now) } := by
      simp
    rw [hfatt] at hmap
    exact hmap
  · exact mark_fst_liveness_irrelevant
  · intro req now db b
    exact mark_depends_on req now (withLivenessRequired b db) db rfl rfl rfl
      (effectiveDeadline_withLivenessRequired b db)
  · exact scan_withLiveness

/-- C9 witness: a request whose liveness object carries is_live false is
stored with flag false at check-in and at check-out, the outcome is the
same as without the liveness object, a flipped livenessRequired setting
changes nothing, and replacing the scorer's reported liveness only
replaces it in the recognized outcome. -/
theorem c9_liveness_recorded_never_gating_witness :
    livenessFlag (some (some false)) = false ∧
    (∃ r, markFind "u1" "2026-10-11" (mark cReqNotLive cT945 cDb0).2 = some r ∧
        r.checkIn = some (checkRecOf cReqNotLive cT945)) ∧
    (∃ r, markFind "u1" "2026-10-11" (mark cReqNotLive cT2min cDbIn).2 = some r ∧
        r.checkOut = some (checkRecOf cReqNotLive cT2min)) ∧
    (mark { cReq with liveness := some (some false) } cT945 cDb0).1 = (mark cReq cT945 cDb0).1 ∧
    (mark cReq cT945 (withLivenessRequired false cDb930)).1 = (mark cReq cT945 cDb930).1 ∧
    scan (some "probe") cDbTuned (withLivenessFetcher cMatchCarol (some false)) =
      (((scan (some "probe") cDbTuned cMatchCarol).1).withLiveness (some false),
       (scan (some "probe") cDbTuned cMatchCarol).2) :=
  ⟨c9_liveness_recorded_never_gating.1 false,
   c9_liveness_recorded_never_gating.2.2.2.2.1 cReqNotLive cT945 cDb0 "u1" cAlice
     rfl (by decide) (by decide),
   c9_liveness_recorded_never_gating.2.2.2.2.2.1 cReqNotLive cT2min cDbIn "u1" cAlice cRecIn
     rfl (by decide) (by decide) (by decide),
   c9_liveness_recorded_never_gating.2.2.2.2.2.2.1 cReq cT945 cDb0 (some (some false)),
   (c9_liveness_recorded_never_gating.2.2.2.2.2.2.2.1 cReq cT945 cDb930 false).1,
   c9_liveness_recorded_never_gating.2.2.2.2.2.2.2.2 (some "probe") cDbTuned cMatchCarol (some false)⟩

/-- C1, amended: under sequential (non-interleaved) execution each mark
call preserves the invariant that a (userId, date) key has at most one
stored record and at most one stored check-in — a fresh key gains
exactly one record and an occupied key is only updated in place or left
alone. The original claim's concurrent form fails: the check-in is a
non-atomic find-then-insert with no unique key index and the check-out
update is unconditional, so interleaved calls can duplicate the key. -/
theorem c1_sequential_mark_preserves_key_uniqueness
    (req : MarkRequest) (now : Time) (db : DB) (uid d : String)
    (h : keyCount uid d db ≤ 1) :
    keyCount uid d (mark req now db).2 ≤ 1 ∧
    checkInCount uid d (mark req now db).2 ≤ 1 := by
  have hgen : keyCount uid d (mark req now db).2 ≤ 1 := by
    rcases hq : req.userId with _ | uid'
    · simpa [mark, hq] using h
    · rcases hfu : db.users.find? (fun u => u.usrId == uid') with _ | u
      · simpa [mark, hq, hfu] using h
      · rcases hmf : markFind uid' now.dateStr db with _ | att
        · rw [mark_checkin_eq req now db uid' hq (by rw [hfu]; rfl) hmf]
          unfold keyCount at h ⊢
          dsimp only
          rw [List.countP_append]
          by_cases hkey : ((newRecordOf req now uid' db).userId == uid &&
              (newRecordOf req now uid' db).date == d) = true
          · have hk := hkey
            simp only [newRecordOf, Bool.and_eq_true, beq_iff_eq] at hk
            obtain ⟨hk1, hk2⟩ := hk
            subst hk1
            subst hk2
            have hzero :
                List.countP (fun a => a.userId == uid' && a.date == now.dateStr) db.attendance = 0 := by
              rw [List.countP_eq_zero]
              intro a ha
              exact List.find?_eq_none.mp hmf a ha
            rw [hzero, List.countP_cons]
            simp [hkey]
          · have hone :
                List.countP (fun a => a.userId == uid && a.date == d) [newRecordOf req now uid' db] = 0 := by
              rw [List.countP_cons]
              simp [hkey]
            rw [hone]
            simpa using h
        · rcases hco : att.checkOut with _ | co
          · rw [mark_checkout_eq req now db uid' u att hq hfu hmf hco]
            unfold keyCount at h ⊢
            dsimp only
            rw [List.countP_map]
            have hsame :
                List.countP
                  ((fun a => a.userId == uid && a.date == d) ∘
                    (fun a => if a.recId == att.recId
                              then { a with checkOut := some (checkRecOf req now) } else a))
                  db.attendance =
                List.countP (fun a => a.userId == uid && a.date == d) db.attendance := by
              apply List.countP_congr
              intro x _
              dsimp only [Function.comp]
              split <;> exact Iff.rfl
            rw [hsame]
            exact h
          · have hm := mark_eq_find_apply req now db uid' hq (by rw [hfu]; rfl)
            rw [hm, hmf]
            have hcs : att.checkOut.isSome = true := by rw [hco]; rfl
            simpa [markApply, hcs] using h
  exact ⟨hgen, le_trans (checkInCount_le_keyCount uid d (mark req now db).2) hgen⟩

/-- C1 amended witness: a sequential mark on an empty store leaves the
key with at most one record and at most one check-in. -/
theorem c1_sequential_mark_preserves_key_uniqueness_witness :
    keyCount "u1" "2026-10-11" (mark cReq cT945 cDb0).2 ≤ 1 ∧
    checkInCount "u1" "2026-10-11" (mark cReq cT945 cDb0).2 ≤ 1 :=
  c1_sequential_mark_preserves_key_uniqueness cReq cT945 cDb0 "u1" "2026-10-11" (by decide)

/-- C4, amended: the thresholds sent to the scorer are the hardcoded
constants — every /match request carries 0.55 and every request placed
by the register route is a /duplicate-check carrying 0.65 or an /embed
request, whatever the stored settings say. -/
theorem c4_thresholds_are_hardcoded_constants :
    (∀ (image : Option String) (db : DB) (f : Nat → FetchOutcome MatchData)
        (r : OracleRequest), r ∈ (scan image db f).2 →
        ∃ img embs, r = OracleRequest.matchFaces img embs (55 / 100)) ∧
    (∀ (callerId : String) (image : Option String) (db : DB)
        (df : Nat → FetchOutcome DupData) (ef : Nat → FetchOutcome EmbedData)
        (r : OracleRequest), r ∈ (register callerId image db df ef).2.1 →
        (∃ img embs, r = OracleRequest.duplicateCheck img embs (65 / 100)) ∨
        (∃ img, r = OracleRequest.embedFace img)) := by
  constructor
  · intro image db f r hr
    rcases image with _ | img
    · simp [scan] at hr
    · rcases scan_log img db f with h | h <;> rw [h] at hr
      · simp at hr
      · rw [List.mem_singleton] at hr
        exact ⟨img, storedEmbeddingsOf (activeUsersWithFaces db), hr⟩
  · intro callerId image db df ef r hr
    rcases image with _ | img
    · simp [register] at hr
    · rcases register_log callerId img db df ef r hr with ⟨embs, h⟩ | h
      · exact Or.inl ⟨img, embs, h⟩
      · exact Or.inr ⟨img, h⟩

/-- C4 amended witness: a concrete scan and a concrete register both
place their requests with the constant thresholds. -/
theorem c4_thresholds_are_hardcoded_constants_witness :
    (∃ img embs, OracleRequest.matchFaces "probe"
        [{ user_id := "u3", name := "Carol", embedding := [5] }] (55 / 100) =
        OracleRequest.matchFaces img embs (55 / 100)) ∧
    ((∃ img embs, OracleRequest.duplicateCheck "probe"
        (storedEmbeddingsOf (otherUsersWithFaces "u1" cDbAliceCarol)) (65 / 100) =
        OracleRequest.duplicateCheck img embs (65 / 100)) ∨
     (∃ img, OracleRequest.duplicateCheck "probe"
        (storedEmbeddingsOf (otherUsersWithFaces "u1" cDbAliceCarol)) (65 / 100) =
        OracleRequest.embedFace img)) :=
  ⟨c4_thresholds_are_hardcoded_constants.1 (some "probe") cDbTuned cMatchMiss
      (OracleRequest.matchFaces "probe"
        [{ user_id := "u3", name := "Carol", embedding := [5] }] (55 / 100))
      (List.mem_singleton.mpr rfl),
   c4_thresholds_are_hardcoded_constants.2 "u1" (some "probe") cDbAliceCarol cDupTrue
      (fun _ => FetchOutcome.thrown)
      (OracleRequest.duplicateCheck "probe"
        (storedEmbeddingsOf (otherUsersWithFaces "u1" cDbAliceCarol)) (65 / 100))
      (List.mem_singleton.mpr rfl)⟩

end Attendance
